import Mathlib

/-!
# Snippet Store Service — shallow embedding

A Lean model of the code-snippet CRUD service in `src/main.py`.

The service keeps two tables: `users` (a single string primary key
`user_str_id`) and `snippets` (surrogate integer `id`, `user_str_id`,
`snippet_name`, `language`, `code_content`, `created_at`, `updated_at`).
We model the database as a `Store`: the list of user ids, the list of
snippet rows in insertion order (SQLite returns rows in rowid order for
these unordered queries, and `first()` takes the first row), and the
next surrogate id.  Timestamps are naturals; each request takes the
current time as an explicit parameter (`datetime.utcnow()` in the code).

Each handler is a function from inputs and a store to a result paired
with the resulting store.  `HTTPException(404)` becomes `Except.error`.
-/

/-- A row of the `snippets` table. -/
structure Snippet where
  id : Nat
  user_str_id : String
  snippet_name : String
  language : String
  code_content : String
  created_at : Nat
  updated_at : Nat
deriving Repr, DecidableEq

/-- The database state: `users` table (primary keys only, in insertion
order), `snippets` table (rows in rowid order), next autoincrement id. -/
structure Store where
  users : List String
  snippets : List Snippet
  next_id : Nat
deriving Repr, DecidableEq

/-- Request body of the upsert endpoint (`SnippetCreate`). -/
structure SnippetCreate where
  snippet_name : String
  language : String
  code_content : String
deriving Repr, DecidableEq

/-- Response model for a full snippet record (`SnippetResponse`):
exactly the five public fields, no `id`, no `user_str_id`. -/
structure SnippetResponse where
  snippet_name : String
  language : String
  code_content : String
  created_at : Nat
  updated_at : Nat
deriving Repr, DecidableEq

/-- Response model for a snippet summary (`SnippetSummary`):
exactly name, language and last update time. -/
structure SnippetSummary where
  snippet_name : String
  language : String
  updated_at : Nat
deriving Repr, DecidableEq

/-- Serialization of a row through `SnippetResponse` (`from_attributes`):
keeps the five declared fields. -/
def toResponse (r : Snippet) : SnippetResponse :=
  { snippet_name := r.snippet_name
    language := r.language
    code_content := r.code_content
    created_at := r.created_at
    updated_at := r.updated_at }

/-- Serialization of a row through `SnippetSummary` (`from_attributes`). -/
def toSummary (r : Snippet) : SnippetSummary :=
  { snippet_name := r.snippet_name
    language := r.language
    updated_at := r.updated_at }

/-- The filter used throughout `main.py`:
`Snippet.user_str_id == user_str_id, Snippet.snippet_name == snippet_name`. -/
def snippetMatches (uid name : String) (r : Snippet) : Bool :=
  r.user_str_id == uid && r.snippet_name == name

/-- `db.query(Snippet).filter(...).first()` on the (user, name) pair:
first row in rowid order that matches, if any. -/
def findSnippet (uid name : String) (rows : List Snippet) : Option Snippet :=
  rows.find? (snippetMatches uid name)

/-- `ensure_user_exists`: query the user by primary key, insert a row
if absent.  Only the store effect is modelled (the code returns the ORM
object, unused by callers beyond its side effect). -/
def ensure_user_exists (uid : String) (s : Store) : Store :=
  if s.users.contains uid then s
  else { s with users := s.users ++ [uid] }

/-- SQLAlchemy updates the matched ORM object in place; in the list
model this replaces the first row matching the pair. -/
def updateFirst (uid name : String) (r2 : Snippet) : List Snippet → List Snippet
  | [] => []
  | r :: rs =>
    if snippetMatches uid name r then r2 :: rs
    else r :: updateFirst uid name r2 rs

/-- `db.delete(snippet)` on the row returned by `first()`: remove the
first row matching the pair. -/
def removeFirst (uid name : String) : List Snippet → List Snippet
  | [] => []
  | r :: rs =>
    if snippetMatches uid name r then rs
    else r :: removeFirst uid name rs

/-- The row inserted by the create branch: fresh surrogate id, the
request's fields, `now` for both timestamps (column defaults). -/
def newRow (uid : String) (d : SnippetCreate) (now : Nat) (i : Nat) : Snippet :=
  { id := i, user_str_id := uid, snippet_name := d.snippet_name,
    language := d.language, code_content := d.code_content,
    created_at := now, updated_at := now }

/-- The in-place mutation of the update branch: overwrite `language`,
`code_content` and `updated_at`; `id`, `user_str_id`, `snippet_name`
and `created_at` are untouched. -/
def updatedRow (d : SnippetCreate) (now : Nat) (r : Snippet) : Snippet :=
  { r with language := d.language, code_content := d.code_content,
           updated_at := now }

/-- `POST /users/.../snippets` (`create_or_update_snippet`): ensure the
user exists; if a row with the (user, name) pair exists, overwrite its
language, code_content and updated_at; otherwise insert a new row with
`now` as both timestamps. -/
def create_or_update_snippet (uid : String) (d : SnippetCreate) (now : Nat)
    (s : Store) : SnippetResponse × Store :=
  let s1 := ensure_user_exists uid s
  match findSnippet uid d.snippet_name s1.snippets with
  | some r =>
    let r2 := updatedRow d now r
    (toResponse r2,
      { s1 with snippets := updateFirst uid d.snippet_name r2 s1.snippets })
  | none =>
    let r := newRow uid d now s1.next_id
    (toResponse r,
      { s1 with snippets := s1.snippets ++ [r], next_id := s1.next_id + 1 })

/-- `GET /users/.../snippets/{name}` (`get_snippet`): exact-match lookup,
404 "Snippet not found" when no row matches. -/
def get_snippet (uid name : String) (s : Store) :
    Except String SnippetResponse × Store :=
  match findSnippet uid name s.snippets with
  | none => (Except.error "Snippet not found", s)
  | some r => (Except.ok (toResponse r), s)

/-- `GET /users/.../snippets` (`list_user_snippets`): all rows of the
user, serialized as summaries. -/
def list_user_snippets (uid : String) (s : Store) :
    List SnippetSummary × Store :=
  (((s.snippets.filter (fun r => r.user_str_id == uid)).map toSummary), s)

/-- The apostrophe character used in the delete confirmation message. -/
def squote : String := String.singleton (Char.ofNat 39)

/-- The f-string `"Snippet '{snippet_name}' deleted successfully"`. -/
def deleteMessage (name : String) : String :=
  "Snippet " ++ squote ++ name ++ squote ++ " deleted successfully"

/-- `DELETE /users/.../snippets/{name}` (`delete_snippet`): exact-match
lookup; 404 "Snippet not found" when absent, otherwise delete the row
and return a confirmation message. -/
def delete_snippet (uid name : String) (s : Store) :
    Except String String × Store :=
  match findSnippet uid name s.snippets with
  | none => (Except.error "Snippet not found", s)
  | some _ =>
    (Except.ok (deleteMessage name),
      { s with snippets := removeFirst uid name s.snippets })

/-- ASCII lowering applied by the generated SQL (`lower(x)` in SQLite
folds only `A`–`Z`; `Char.toLower` does exactly that). -/
def sqlLower (x : String) : String := String.mk (x.data.map Char.toLower)

/-- SQL `LIKE` pattern matching: `%` matches any (possibly empty)
sequence, `_` matches exactly one character, anything else matches
itself.  No ESCAPE clause is declared in the query. -/
def likeMatch : List Char → List Char → Bool
  | [], s => s.isEmpty
  | p :: ps, s =>
    if p = '%' then s.tails.any (fun t => likeMatch ps t)
    else
      match s with
      | [] => false
      | c :: cs => (if p = '_' then true else p == c) && likeMatch ps cs

/-- `Snippet.language.ilike(f"%{language}%")`: SQLAlchemy emits
`lower(language) LIKE lower('%' || filter || '%')`. -/
def ilikeContains (column pat : String) : Bool :=
  likeMatch (sqlLower ("%" ++ pat ++ "%")).data (sqlLower column).data

/-- `GET /users/.../snippets/language/{language}`
(`get_snippets_by_language`): rows of the user whose language matches
the `ilike` pattern, serialized as summaries. -/
def get_snippets_by_language (uid lang : String) (s : Store) :
    List SnippetSummary × Store :=
  (((s.snippets.filter
      (fun r => r.user_str_id == uid && ilikeContains r.language lang)).map
        toSummary), s)

/-! ## Helper lemmas -/

/-- Number of rows matching a (user, name) pair. -/
def countPair (uid name : String) (rows : List Snippet) : Nat :=
  (rows.filter (snippetMatches uid name)).length

/-- At most one row per (user, name) pair: the application-level
uniqueness invariant of §3 of the design. -/
def UniquePairs (rows : List Snippet) : Prop :=
  ∀ uid name, countPair uid name rows ≤ 1

theorem ensure_user_exists_snippets (uid : String) (s : Store) :
    (ensure_user_exists uid s).snippets = s.snippets := by
  unfold ensure_user_exists
  split <;> rfl

theorem ensure_user_exists_next_id (uid : String) (s : Store) :
    (ensure_user_exists uid s).next_id = s.next_id := by
  unfold ensure_user_exists
  split <;> rfl

theorem snippetMatches_eq_true {uid name : String} {r : Snippet}
    (h : snippetMatches uid name r = true) :
    r.user_str_id = uid ∧ r.snippet_name = name := by
  simpa [snippetMatches] using h

theorem snippetMatches_of_fields {uid name : String} {r : Snippet}
    (h1 : r.user_str_id = uid) (h2 : r.snippet_name = name) :
    snippetMatches uid name r = true := by
  simp [snippetMatches, h1, h2]

theorem snippetMatches_congr {u2 n2 : String} {r r2 : Snippet}
    (h1 : r.user_str_id = r2.user_str_id) (h2 : r.snippet_name = r2.snippet_name) :
    snippetMatches u2 n2 r = snippetMatches u2 n2 r2 := by
  simp [snippetMatches, h1, h2]

theorem findSnippet_updateFirst {uid name : String} {rows : List Snippet}
    {r r2 : Snippet} (hfind : findSnippet uid name rows = some r)
    (hr2 : snippetMatches uid name r2 = true) :
    findSnippet uid name (updateFirst uid name r2 rows) = some r2 := by
  induction rows with
  | nil => simp [findSnippet] at hfind
  | cons x xs ih =>
    by_cases hx : snippetMatches uid name x = true
    · simp [updateFirst, hx, findSnippet, List.find?_cons_of_pos _ hr2]
    · simp only [findSnippet] at hfind ih ⊢
      rw [List.find?_cons_of_neg _ hx] at hfind
      unfold updateFirst
      rw [if_neg hx, List.find?_cons_of_neg _ hx]
      exact ih hfind

theorem countPair_cons (uid name : String) (x : Snippet) (xs : List Snippet) :
    countPair uid name (x :: xs)
      = (if snippetMatches uid name x = true then 1 else 0) + countPair uid name xs := by
  simp only [countPair, List.filter_cons]
  split <;> simp [Nat.add_comm]

theorem countPair_updateFirst (u2 n2 : String) {uid name : String}
    {r2 : Snippet} (rows : List Snippet)
    (h2 : r2.user_str_id = uid ∧ r2.snippet_name = name) :
    countPair u2 n2 (updateFirst uid name r2 rows) = countPair u2 n2 rows := by
  induction rows with
  | nil => rfl
  | cons x xs ih =>
    by_cases hx : snippetMatches uid name x = true
    · obtain ⟨hxu, hxn⟩ := snippetMatches_eq_true hx
      have hcong : snippetMatches u2 n2 x = snippetMatches u2 n2 r2 :=
        snippetMatches_congr (by rw [hxu, h2.1]) (by rw [hxn, h2.2])
      simp only [updateFirst, if_pos hx]
      rw [countPair_cons, countPair_cons, hcong]
    · simp only [updateFirst, if_neg hx]
      rw [countPair_cons, countPair_cons, ih]

theorem length_updateFirst (uid name : String) (r2 : Snippet)
    (rows : List Snippet) :
    (updateFirst uid name r2 rows).length = rows.length := by
  induction rows with
  | nil => rfl
  | cons x xs ih =>
    unfold updateFirst
    split <;> simp [ih]

theorem countPair_append (uid name : String) (l1 l2 : List Snippet) :
    countPair uid name (l1 ++ l2) = countPair uid name l1 + countPair uid name l2 := by
  simp [countPair, List.filter_append]

theorem countPair_eq_zero {uid name : String} {rows : List Snippet} :
    countPair uid name rows = 0 ↔ findSnippet uid name rows = none := by
  simp [countPair, findSnippet, List.length_eq_zero, List.filter_eq_nil_iff,
    List.find?_eq_none]

theorem countPair_pos {uid name : String} {rows : List Snippet} {r : Snippet}
    (h : findSnippet uid name rows = some r) : 1 ≤ countPair uid name rows := by
  by_contra hc
  have h0 : countPair uid name rows = 0 := by omega
  rw [countPair_eq_zero] at h0
  rw [h0] at h
  exact Option.noConfusion h

theorem upsert_of_none {uid : String} {d : SnippetCreate} {now : Nat} {s : Store}
    (hfind : findSnippet uid d.snippet_name s.snippets = none) :
    create_or_update_snippet uid d now s
      = (toResponse (newRow uid d now s.next_id),
         { users := (ensure_user_exists uid s).users,
           snippets := s.snippets ++ [newRow uid d now s.next_id],
           next_id := s.next_id + 1 }) := by
  unfold create_or_update_snippet
  simp only [ensure_user_exists_snippets, ensure_user_exists_next_id, hfind]

theorem upsert_of_some {uid : String} {d : SnippetCreate} {now : Nat} {s : Store}
    {r : Snippet} (hfind : findSnippet uid d.snippet_name s.snippets = some r) :
    create_or_update_snippet uid d now s
      = (toResponse (updatedRow d now r),
         { users := (ensure_user_exists uid s).users,
           snippets := updateFirst uid d.snippet_name (updatedRow d now r) s.snippets,
           next_id := s.next_id }) := by
  unfold create_or_update_snippet
  simp only [ensure_user_exists_snippets, ensure_user_exists_next_id, hfind]

/-! ## Claims -/

/-- C7: listing snippets for a user with no rows succeeds and returns
the empty sequence rather than an error, and in general the list
operation returns one (name, language, updated_at) summary per snippet
row of that user. -/
theorem list_empty_and_one_summary_per_row (uid : String) (s : Store) :
    (list_user_snippets uid s).1
      = (s.snippets.filter (fun r => r.user_str_id == uid)).map toSummary ∧
    (list_user_snippets uid s).1.length
      = (s.snippets.filter (fun r => r.user_str_id == uid)).length ∧
    ((∀ r ∈ s.snippets, r.user_str_id ≠ uid) → (list_user_snippets uid s).1 = []) := by
  refine ⟨rfl, by simp [list_user_snippets], ?_⟩
  intro h
  simp only [list_user_snippets, List.map_eq_nil_iff, List.filter_eq_nil_iff]
  intro r hr
  simpa using h r hr

/-- C7 witness: a user with zero snippets gets an empty list. -/
theorem list_empty_and_one_summary_per_row_witness :
    (list_user_snippets "alice" { users := [], snippets := [], next_id := 0 }).1 = [] :=
  (list_empty_and_one_summary_per_row "alice"
    { users := [], snippets := [], next_id := 0 }).2.2 (by simp)

/-- C8: the read operations return the store unchanged, and a delete
that fails with "not found" also returns the store unchanged. -/
theorem reads_and_failed_delete_leave_store_unchanged
    (uid name lang : String) (s : Store) :
    (get_snippet uid name s).2 = s ∧
    (list_user_snippets uid s).2 = s ∧
    (get_snippets_by_language uid lang s).2 = s ∧
    ((delete_snippet uid name s).1 = Except.error "Snippet not found" →
      (delete_snippet uid name s).2 = s) := by
  refine ⟨?_, rfl, rfl, ?_⟩
  · unfold get_snippet
    rcases findSnippet uid name s.snippets with _ | r <;> rfl
  · unfold delete_snippet
    rcases findSnippet uid name s.snippets with _ | r
    · intro _; rfl
    · intro h; exact absurd h (by simp)

/-- C8 witness: instantiated at a concrete store where the delete
misses. -/
theorem reads_and_failed_delete_leave_store_unchanged_witness :
    (delete_snippet "alice" "hello" { users := [], snippets := [], next_id := 0 }).2
      = { users := [], snippets := [], next_id := 0 } :=
  (reads_and_failed_delete_leave_store_unchanged "alice" "hello" "py"
    { users := [], snippets := [], next_id := 0 }).2.2.2 (by rfl)

/-- C9: the serialized responses expose exactly the declared public
fields; in particular they do not depend on the internal surrogate `id`
or on `user_str_id`. -/
theorem responses_hide_internal_fields (r : Snippet) (i : Nat) (u : String) :
    toResponse r = { snippet_name := r.snippet_name, language := r.language,
                     code_content := r.code_content, created_at := r.created_at,
                     updated_at := r.updated_at } ∧
    toSummary r = { snippet_name := r.snippet_name, language := r.language,
                    updated_at := r.updated_at } ∧
    toResponse { r with id := i, user_str_id := u } = toResponse r ∧
    toSummary { r with id := i, user_str_id := u } = toSummary r :=
  ⟨rfl, rfl, rfl, rfl⟩

theorem findSnippet_eq_none_iff {uid name : String} {rows : List Snippet} :
    findSnippet uid name rows = none
      ↔ ∀ r ∈ rows, ¬(r.user_str_id = uid ∧ r.snippet_name = name) := by
  rw [findSnippet, List.find?_eq_none]
  constructor
  · intro h r hr hc
    exact absurd (snippetMatches_of_fields hc.1 hc.2) (h r hr)
  · intro h r hr hm
    exact h r hr (snippetMatches_eq_true hm)

theorem findSnippet_after_upsert (uid : String) (d : SnippetCreate) (now : Nat)
    (s : Store) :
    ∃ r1 : Snippet,
      findSnippet uid d.snippet_name
        (create_or_update_snippet uid d now s).2.snippets = some r1 ∧
      r1.language = d.language ∧ r1.code_content = d.code_content ∧
      r1.updated_at = now ∧
      (∀ r0, findSnippet uid d.snippet_name s.snippets = some r0 →
        r1.created_at = r0.created_at) ∧
      (findSnippet uid d.snippet_name s.snippets = none → r1.created_at = now) := by
  rcases hfind : findSnippet uid d.snippet_name s.snippets with _ | r
  · rw [upsert_of_none hfind]
    refine ⟨newRow uid d now s.next_id, ?_, rfl, rfl, rfl, ?_, fun _ => rfl⟩
    · show findSnippet uid d.snippet_name
        (s.snippets ++ [newRow uid d now s.next_id]) = _
      unfold findSnippet at hfind ⊢
      rw [List.find?_append, hfind, Option.none_or]
      exact List.find?_cons_of_pos _ (by simp [snippetMatches, newRow])
    · intro r0 hr0
      exact Option.noConfusion hr0
  · rw [upsert_of_some hfind]
    have hr := snippetMatches_eq_true (List.find?_some hfind)
    have hmatch : snippetMatches uid d.snippet_name (updatedRow d now r) = true :=
      snippetMatches_of_fields (by simpa [updatedRow] using hr.1)
        (by simpa [updatedRow] using hr.2)
    refine ⟨updatedRow d now r, ?_, rfl, rfl, rfl, ?_, ?_⟩
    · show findSnippet uid d.snippet_name
        (updateFirst uid d.snippet_name (updatedRow d now r) s.snippets) = _
      exact findSnippet_updateFirst hfind hmatch
    · intro r0 hr0
      cases hr0
      rfl
    · intro hnone
      exact Option.noConfusion hnone

/-- C1: the upsert preserves "at most one row per (user, name) pair":
a miss inserts exactly one row (count for the pair becomes 1, length
grows by one), a hit updates in place (count stays 1, length is
unchanged), so no duplicate can appear in a subsequent list. -/
theorem upsert_preserves_pair_uniqueness (uid : String) (d : SnippetCreate)
    (now : Nat) (s : Store) (h : UniquePairs s.snippets) :
    UniquePairs (create_or_update_snippet uid d now s).2.snippets ∧
    countPair uid d.snippet_name
      (create_or_update_snippet uid d now s).2.snippets = 1 ∧
    (findSnippet uid d.snippet_name s.snippets = none →
      (create_or_update_snippet uid d now s).2.snippets.length
        = s.snippets.length + 1) ∧
    (findSnippet uid d.snippet_name s.snippets ≠ none →
      (create_or_update_snippet uid d now s).2.snippets.length
        = s.snippets.length) := by
  rcases hfind : findSnippet uid d.snippet_name s.snippets with _ | r
  · rw [upsert_of_none hfind]
    have hzero : countPair uid d.snippet_name s.snippets = 0 :=
      countPair_eq_zero.mpr hfind
    refine ⟨?_, ?_, ?_, ?_⟩
    · intro u2 n2
      show countPair u2 n2 (s.snippets ++ [newRow uid d now s.next_id]) ≤ 1
      rw [countPair_append, countPair_cons]
      have hnil : countPair u2 n2 [] = 0 := rfl
      by_cases hx : snippetMatches u2 n2 (newRow uid d now s.next_id) = true
      · obtain ⟨h1, h2⟩ := snippetMatches_eq_true hx
        have hu : u2 = uid := by simpa [newRow] using h1.symm
        have hn : n2 = d.snippet_name := by simpa [newRow] using h2.symm
        rw [if_pos hx, hnil, hu, hn, hzero]
      · rw [if_neg hx, hnil]
        have := h u2 n2
        omega
    · show countPair uid d.snippet_name
        (s.snippets ++ [newRow uid d now s.next_id]) = 1
      rw [countPair_append, countPair_cons, hzero]
      have hx : snippetMatches uid d.snippet_name (newRow uid d now s.next_id) = true := by
        simp [snippetMatches, newRow]
      rw [if_pos hx]
      rfl
    · intro _
      simp
    · intro hne
      exact absurd rfl hne
  · rw [upsert_of_some hfind]
    have hr := snippetMatches_eq_true (List.find?_some hfind)
    have h2 : (updatedRow d now r).user_str_id = uid ∧
        (updatedRow d now r).snippet_name = d.snippet_name := by
      simpa [updatedRow] using hr
    refine ⟨?_, ?_, ?_, ?_⟩
    · intro u2 n2
      show countPair u2 n2
        (updateFirst uid d.snippet_name (updatedRow d now r) s.snippets) ≤ 1
      rw [countPair_updateFirst u2 n2 s.snippets h2]
      exact h u2 n2
    · show countPair uid d.snippet_name
        (updateFirst uid d.snippet_name (updatedRow d now r) s.snippets) = 1
      rw [countPair_updateFirst _ _ s.snippets h2]
      have h1 := countPair_pos hfind
      have hle := h uid d.snippet_name
      omega
    · intro hnone
      exact Option.noConfusion hnone
    · intro _
      show (updateFirst uid d.snippet_name (updatedRow d now r) s.snippets).length
        = s.snippets.length
      exact length_updateFirst _ _ _ _

/-- C1 witness: upserting twice with the same pair on the empty store
keeps the pair unique. -/
theorem upsert_preserves_pair_uniqueness_witness :
    UniquePairs (create_or_update_snippet "alice"
      { snippet_name := "hello", language := "python", code_content := "print(1)" }
      5 { users := [], snippets := [], next_id := 0 }).2.snippets :=
  (upsert_preserves_pair_uniqueness "alice"
    { snippet_name := "hello", language := "python", code_content := "print(1)" }
    5 { users := [], snippets := [], next_id := 0 }
    (fun _ _ => by simp [countPair])).1

/-- C2: a get immediately after an upsert of the same (user, name) pair
succeeds and returns exactly the code_content and language sent. -/
theorem upsert_then_get_round_trip (uid : String) (d : SnippetCreate) (now : Nat)
    (s : Store) :
    ∃ resp : SnippetResponse,
      (get_snippet uid d.snippet_name (create_or_update_snippet uid d now s).2).1
        = Except.ok resp ∧
      resp.code_content = d.code_content ∧ resp.language = d.language := by
  obtain ⟨r1, hfind, hlang, hcode, _, _, _⟩ := findSnippet_after_upsert uid d now s
  refine ⟨toResponse r1, ?_, hcode, hlang⟩
  unfold get_snippet
  rw [hfind]

theorem findSnippet_removeFirst_eq_none {uid name : String} {rows : List Snippet}
    (hcount : countPair uid name rows ≤ 1) :
    findSnippet uid name (removeFirst uid name rows) = none := by
  induction rows with
  | nil => rfl
  | cons x xs ih =>
    by_cases hx : snippetMatches uid name x = true
    · unfold removeFirst
      rw [if_pos hx]
      rw [countPair_cons, if_pos hx] at hcount
      exact countPair_eq_zero.mp (by omega)
    · unfold removeFirst
      rw [if_neg hx]
      rw [countPair_cons, if_neg hx] at hcount
      show List.find? (snippetMatches uid name) (x :: removeFirst uid name xs) = none
      rw [List.find?_cons_of_neg _ hx]
      exact ih (by omega)

/-- C3: get and delete fail with "not found" exactly when no row
matches the (user, name) pair; under the uniqueness invariant, deleting
an existing snippet succeeds with the confirmation message and a
subsequent get reports "not found". -/
theorem not_found_iff_no_matching_row (uid name : String) (s : Store)
    (h : UniquePairs s.snippets) :
    ((get_snippet uid name s).1 = Except.error "Snippet not found" ↔
      ∀ r ∈ s.snippets, ¬(r.user_str_id = uid ∧ r.snippet_name = name)) ∧
    ((delete_snippet uid name s).1 = Except.error "Snippet not found" ↔
      ∀ r ∈ s.snippets, ¬(r.user_str_id = uid ∧ r.snippet_name = name)) ∧
    (∀ r, findSnippet uid name s.snippets = some r →
      (delete_snippet uid name s).1 = Except.ok (deleteMessage name) ∧
      (get_snippet uid name (delete_snippet uid name s).2).1
        = Except.error "Snippet not found") := by
  rw [← findSnippet_eq_none_iff]
  rcases hfind : findSnippet uid name s.snippets with _ | r
  · refine ⟨?_, ?_, ?_⟩
    · unfold get_snippet
      rw [hfind]
      simp
    · unfold delete_snippet
      rw [hfind]
      simp
    · intro r hr
      exact Option.noConfusion hr
  · refine ⟨?_, ?_, ?_⟩
    · unfold get_snippet
      rw [hfind]
      simp
    · unfold delete_snippet
      rw [hfind]
      simp
    · intro r2 hr2
      constructor
      · unfold delete_snippet
        rw [hfind]
      · unfold delete_snippet
        rw [hfind]
        unfold get_snippet
        dsimp only
        rw [findSnippet_removeFirst_eq_none (h uid name)]

/-- C3 witness: concrete store with one matching row; delete succeeds
and leaves the pair unfindable; both iffs hold. -/
theorem not_found_iff_no_matching_row_witness :
    (delete_snippet "alice" "hello"
      { users := ["alice"],
        snippets := [{ id := 1, user_str_id := "alice", snippet_name := "hello",
                       language := "python", code_content := "print(1)",
                       created_at := 0, updated_at := 0 }],
        next_id := 2 }).1 = Except.ok (deleteMessage "hello") :=
  ((not_found_iff_no_matching_row "alice" "hello"
      { users := ["alice"],
        snippets := [{ id := 1, user_str_id := "alice", snippet_name := "hello",
                       language := "python", code_content := "print(1)",
                       created_at := 0, updated_at := 0 }],
        next_id := 2 }
      (fun u n => by simp [countPair, List.filter]; split <;> simp)).2.2
    { id := 1, user_str_id := "alice", snippet_name := "hello",
      language := "python", code_content := "print(1)",
      created_at := 0, updated_at := 0 } (by rfl)).1

/-- C5: after an upsert the stored row has `updated_at = now`; a second
upsert of the same pair refreshes `updated_at` but leaves `created_at`
exactly as the first write set it, and `updated_at` is non-decreasing
whenever the clock is. -/
theorem created_at_set_once_updated_at_refreshed (uid : String)
    (d1 d2 : SnippetCreate) (t1 t2 : Nat) (s : Store)
    (hn : d2.snippet_name = d1.snippet_name) (ht : t1 ≤ t2) :
    ∃ r1 r2 : Snippet,
      findSnippet uid d1.snippet_name
        (create_or_update_snippet uid d1 t1 s).2.snippets = some r1 ∧
      findSnippet uid d1.snippet_name
        (create_or_update_snippet uid d2 t2
          (create_or_update_snippet uid d1 t1 s).2).2.snippets = some r2 ∧
      r1.updated_at = t1 ∧ r2.updated_at = t2 ∧
      r1.updated_at ≤ r2.updated_at ∧
      r2.created_at = r1.created_at ∧
      (findSnippet uid d1.snippet_name s.snippets = none →
        r1.created_at = t1) := by
  obtain ⟨r1, hf1, _, _, hu1, _, hc1new⟩ := findSnippet_after_upsert uid d1 t1 s
  obtain ⟨r2, hf2, _, _, hu2, hc2old, _⟩ :=
    findSnippet_after_upsert uid d2 t2 (create_or_update_snippet uid d1 t1 s).2
  rw [hn] at hf2 hc2old
  refine ⟨r1, r2, hf1, hf2, hu1, hu2, ?_, hc2old r1 hf1, hc1new⟩
  rw [hu1, hu2]
  exact ht

/-- C5 witness: two concrete upserts at times 3 ≤ 7 on the empty store. -/
theorem created_at_set_once_updated_at_refreshed_witness :
    (3 : Nat) ≤ 7 ∧
    ∃ r1 r2 : Snippet,
      findSnippet "alice" "hello"
        (create_or_update_snippet "alice"
          { snippet_name := "hello", language := "python", code_content := "print(1)" }
          3 { users := [], snippets := [], next_id := 0 }).2.snippets = some r1 ∧
      findSnippet "alice" "hello"
        (create_or_update_snippet "alice"
          { snippet_name := "hello", language := "py3", code_content := "print(2)" }
          7 (create_or_update_snippet "alice"
              { snippet_name := "hello", language := "python", code_content := "print(1)" }
              3 { users := [], snippets := [], next_id := 0 }).2).2.snippets = some r2 ∧
      r1.updated_at = 3 ∧ r2.updated_at = 7 ∧
      r1.updated_at ≤ r2.updated_at ∧
      r2.created_at = r1.created_at ∧
      (findSnippet "alice" "hello"
        ({ users := [], snippets := [], next_id := 0 } : Store).snippets = none →
        r1.created_at = 3) :=
  ⟨by omega,
   created_at_set_once_updated_at_refreshed "alice"
     { snippet_name := "hello", language := "python", code_content := "print(1)" }
     { snippet_name := "hello", language := "py3", code_content := "print(2)" }
     3 7 { users := [], snippets := [], next_id := 0 } rfl (by omega)⟩

/-! ## SQL LIKE lemmas -/

theorem likeMatch_pct_any (ps s : List Char) :
    likeMatch ('%' :: ps) s = s.tails.any (fun t => likeMatch ps t) := by
  simp [likeMatch]

theorem likeMatch_single_pct (t : List Char) : likeMatch ['%'] t = true := by
  rw [likeMatch_pct_any, List.any_eq_true]
  refine ⟨[], (List.mem_tails _ _).mpr List.nil_suffix, rfl⟩

theorem likeMatch_double_pct (s : List Char) : likeMatch ['%', '%'] s = true := by
  rw [likeMatch_pct_any, List.any_eq_true]
  exact ⟨s, (List.mem_tails _ _).mpr List.suffix_rfl, likeMatch_single_pct s⟩

theorem toLower_pct : Char.toLower '%' = '%' := by decide

theorem ilikeContains_empty (col : String) : ilikeContains col "" = true := by
  unfold ilikeContains
  have hp : (sqlLower ("%" ++ "" ++ "%")).data = ['%', '%'] := by decide
  rw [hp]
  exact likeMatch_double_pct _

/-- C10: filtering by the empty language string returns all of the
user's snippets (the pattern degenerates to `%%`, which matches every
language value). -/
theorem filter_empty_language_lists_all (uid : String) (s : Store) :
    (get_snippets_by_language uid "" s).1 = (list_user_snippets uid s).1 := by
  unfold get_snippets_by_language list_user_snippets
  dsimp only
  congr 1
  apply List.filter_congr
  intro r _
  rw [ilikeContains_empty]
  simp

theorem upsert_users (uid : String) (d : SnippetCreate) (now : Nat) (s : Store) :
    (create_or_update_snippet uid d now s).2.users
      = (ensure_user_exists uid s).users := by
  rcases hfind : findSnippet uid d.snippet_name s.snippets with _ | r
  · rw [upsert_of_none hfind]
  · rw [upsert_of_some hfind]

/-- C6 counterexample: `get_snippet` for the previously-unseen user
"alice" does not create a User row — the users table stays empty.  Only
the upsert endpoint calls `ensure_user_exists`; get, list, filter and
delete never touch the users table. -/
theorem get_snippet_does_not_create_user :
    (get_snippet "alice" "hello"
      { users := [], snippets := [], next_id := 0 }).2.users = [] ∧
    ¬ "alice" ∈ (get_snippet "alice" "hello"
      { users := [], snippets := [], next_id := 0 }).2.users := by
  refine ⟨rfl, ?_⟩
  intro hmem
  simp [get_snippet, findSnippet] at hmem

/-- C6 (amended): the upsert creates the User row implicitly for a
previously-unseen user id (appending it, leaving existing user rows
unchanged) and leaves the table untouched when the user is known; get,
list, filter-by-language and delete never change the users table — in
particular the user row persists when its snippets are deleted. -/
theorem implicit_user_creation_only_on_upsert (uid name lang : String)
    (d : SnippetCreate) (now : Nat) (s : Store) :
    (¬ uid ∈ s.users →
      (create_or_update_snippet uid d now s).2.users = s.users ++ [uid]) ∧
    (uid ∈ s.users →
      (create_or_update_snippet uid d now s).2.users = s.users) ∧
    (get_snippet uid name s).2.users = s.users ∧
    (list_user_snippets uid s).2.users = s.users ∧
    (get_snippets_by_language uid lang s).2.users = s.users ∧
    (delete_snippet uid name s).2.users = s.users := by
  refine ⟨?_, ?_, ?_, rfl, rfl, ?_⟩
  · intro hmem
    rw [upsert_users]
    unfold ensure_user_exists
    rw [if_neg (by simpa using hmem)]
  · intro hmem
    rw [upsert_users]
    unfold ensure_user_exists
    rw [if_pos (by simpa using hmem)]
  · unfold get_snippet
    rcases findSnippet uid name s.snippets with _ | r <;> rfl
  · unfold delete_snippet
    rcases findSnippet uid name s.snippets with _ | r <;> rfl

/-- C6 amended witness: upserting for the unseen user "alice" appends
the user row; deleting her only snippet afterwards keeps the row. -/
theorem implicit_user_creation_only_on_upsert_witness :
    (¬ "alice" ∈ ({ users := [], snippets := [], next_id := 0 } : Store).users) ∧
    (create_or_update_snippet "alice"
      { snippet_name := "hello", language := "python", code_content := "print(1)" }
      5 { users := [], snippets := [], next_id := 0 }).2.users = [] ++ ["alice"] :=
  ⟨by simp,
   (implicit_user_creation_only_on_upsert "alice" "hello" "py"
     { snippet_name := "hello", language := "python", code_content := "print(1)" }
     5 { users := [], snippets := [], next_id := 0 }).1 (by simp)⟩

/-- Case-insensitive substring containment — the spec's wording of the
language filter ("case-insensitive substring match on language field"),
stated for comparison with the `ilike` implementation. -/
def isSubstrOf (needle hay : List Char) : Bool :=
  hay.tails.any (fun t => needle.isPrefixOf t)

/-- The language filter as the spec words it: the user's snippets whose
(ASCII-lowered) language contains the (ASCII-lowered) filter string as
a plain substring. -/
def filter_by_language_substring_spec (uid lang : String) (s : Store) :
    List SnippetSummary :=
  ((s.snippets.filter (fun r => r.user_str_id == uid &&
      isSubstrOf (sqlLower lang).data (sqlLower r.language).data)).map toSummary)

/-- C4 counterexample: with one row of language "python", filtering by
"p_thon" returns the row — the `_` acts as a SQL LIKE single-character
wildcard inside the `ilike` pattern — although "p_thon" is not a
substring of "python".  So the filter is not plain case-insensitive
substring matching for every filter string. -/
theorem filter_language_wildcard_counterexample :
    (get_snippets_by_language "alice" "p_thon"
      { users := ["alice"],
        snippets := [{ id := 1, user_str_id := "alice", snippet_name := "s1",
                       language := "python", code_content := "x",
                       created_at := 0, updated_at := 0 }],
        next_id := 2 }).1
      = [{ snippet_name := "s1", language := "python", updated_at := 0 }] ∧
    filter_by_language_substring_spec "alice" "p_thon"
      { users := ["alice"],
        snippets := [{ id := 1, user_str_id := "alice", snippet_name := "s1",
                       language := "python", code_content := "x",
                       created_at := 0, updated_at := 0 }],
        next_id := 2 } = [] ∧
    (get_snippets_by_language "alice" "p_thon"
      { users := ["alice"],
        snippets := [{ id := 1, user_str_id := "alice", snippet_name := "s1",
                       language := "python", code_content := "x",
                       created_at := 0, updated_at := 0 }],
        next_id := 2 }).1
      ≠ filter_by_language_substring_spec "alice" "p_thon"
        { users := ["alice"],
          snippets := [{ id := 1, user_str_id := "alice", snippet_name := "s1",
                         language := "python", code_content := "x",
                         created_at := 0, updated_at := 0 }],
          next_id := 2 } := by
  refine ⟨by decide, by decide, by decide⟩

theorem likeMatch_plain_pct (l : List Char)
    (hl : ∀ c ∈ l, c ≠ '%' ∧ c ≠ '_') (t : List Char) :
    likeMatch (l ++ ['%']) t = l.isPrefixOf t := by
  induction l generalizing t with
  | nil =>
    simp only [List.nil_append, likeMatch_single_pct, List.isPrefixOf_nil_left]
  | cons c l ih =>
    have hc := hl c (List.mem_cons_self c l)
    have hl2 : ∀ x ∈ l, x ≠ '%' ∧ x ≠ '_' :=
      fun x hx => hl x (List.mem_cons_of_mem _ hx)
    cases t with
    | nil =>
      simp [likeMatch, hc.1, List.isPrefixOf]
    | cons a t2 =>
      simp only [List.cons_append, likeMatch, if_neg hc.1, if_neg hc.2,
        List.isPrefixOf, ih hl2 t2]
      rw [show List.append l ['%'] = l ++ ['%'] from rfl, ih hl2 t2]

theorem likeMatch_substr (f s : List Char)
    (hf : ∀ c ∈ f, c ≠ '%' ∧ c ≠ '_') :
    likeMatch ('%' :: (f ++ ['%'])) s = isSubstrOf f s := by
  rw [likeMatch_pct_any]
  unfold isSubstrOf
  simp only [likeMatch_plain_pct f hf]

theorem toLower_eq_low {c d : Char} (hd : d.toNat < 97)
    (h : Char.toLower c = d) : c = d := by
  by_cases hc : c.toNat ≥ 65 ∧ c.toNat ≤ 90
  · exfalso
    have he : Char.toLower c = Char.ofNat (c.toNat + 32) := by
      simp only [Char.toLower]
      exact if_pos hc
    rw [he] at h
    rw [← h] at hd
    obtain ⟨h1, h2⟩ := hc
    interval_cases c.toNat <;> revert hd <;> decide
  · have he : Char.toLower c = c := by
      simp only [Char.toLower]
      exact if_neg hc
    rw [he] at h
    exact h

theorem sqlLower_no_wildcards {f : String}
    (hf : ∀ c ∈ f.data, c ≠ '%' ∧ c ≠ '_') :
    ∀ c ∈ (sqlLower f).data, c ≠ '%' ∧ c ≠ '_' := by
  intro c hc
  have hc2 : c ∈ f.data.map Char.toLower := hc
  rw [List.mem_map] at hc2
  obtain ⟨c0, hc0, rfl⟩ := hc2
  have h0 := hf c0 hc0
  constructor
  · intro h
    exact h0.1 (toLower_eq_low (by decide) h)
  · intro h
    exact h0.2 (toLower_eq_low (by decide) h)

theorem ilike_pattern_data (f : String) :
    (sqlLower ("%" ++ f ++ "%")).data = '%' :: ((sqlLower f).data ++ ['%']) := by
  show (("%" ++ f ++ "%").data.map Char.toLower) = _
  rw [String.data_append, String.data_append]
  show ((['%'] ++ f.data ++ ['%']).map Char.toLower) = _
  simp [toLower_pct, sqlLower]

/-- C4 (amended): for every filter string containing no SQL LIKE
wildcard (`%` or `_`), the language filter returns exactly the user's
snippets whose language contains the filter as a case-insensitive
(ASCII folding) substring; rows of other users are never returned.
For filter strings containing wildcards the match is SQL LIKE matching
instead (see the counterexample). -/
theorem filter_language_ci_substring (uid f : String) (s : Store)
    (hf : ∀ c ∈ f.data, c ≠ '%' ∧ c ≠ '_') :
    (get_snippets_by_language uid f s).1
      = filter_by_language_substring_spec uid f s := by
  unfold get_snippets_by_language filter_by_language_substring_spec
  dsimp only
  congr 1
  apply List.filter_congr
  intro r _
  have hlike : ilikeContains r.language f
      = isSubstrOf (sqlLower f).data (sqlLower r.language).data := by
    unfold ilikeContains
    rw [ilike_pattern_data]
    exact likeMatch_substr _ _ (sqlLower_no_wildcards hf)
  rw [hlike]

/-- C4 witness: filtering by "python" (wildcard-free) over a store with
languages "Python", "python3" and a row of another user returns exactly
the case-insensitive substring matches of that user. -/
theorem filter_language_ci_substring_witness :
    (∀ c ∈ "python".data, c ≠ '%' ∧ c ≠ '_') ∧
    (get_snippets_by_language "alice" "python"
      { users := ["alice", "bob"],
        snippets := [{ id := 1, user_str_id := "alice", snippet_name := "a1",
                       language := "Python", code_content := "x",
                       created_at := 0, updated_at := 1 },
                     { id := 2, user_str_id := "alice", snippet_name := "a2",
                       language := "python3", code_content := "y",
                       created_at := 0, updated_at := 2 },
                     { id := 3, user_str_id := "alice", snippet_name := "a3",
                       language := "java", code_content := "z",
                       created_at := 0, updated_at := 3 },
                     { id := 4, user_str_id := "bob", snippet_name := "b1",
                       language := "python", code_content := "w",
                       created_at := 0, updated_at := 4 }],
        next_id := 5 }).1
      = filter_by_language_substring_spec "alice" "python"
        { users := ["alice", "bob"],
          snippets := [{ id := 1, user_str_id := "alice", snippet_name := "a1",
                         language := "Python", code_content := "x",
                         created_at := 0, updated_at := 1 },
                       { id := 2, user_str_id := "alice", snippet_name := "a2",
                         language := "python3", code_content := "y",
                         created_at := 0, updated_at := 2 },
                       { id := 3, user_str_id := "alice", snippet_name := "a3",
                         language := "java", code_content := "z",
                         created_at := 0, updated_at := 3 },
                       { id := 4, user_str_id := "bob", snippet_name := "b1",
                         language := "python", code_content := "w",
                         created_at := 0, updated_at := 4 }],
          next_id := 5 } ∧
    (get_snippets_by_language "alice" "python"
      { users := ["alice", "bob"],
        snippets := [{ id := 1, user_str_id := "alice", snippet_name := "a1",
                       language := "Python", code_content := "x",
                       created_at := 0, updated_at := 1 },
                     { id := 2, user_str_id := "alice", snippet_name := "a2",
                       language := "python3", code_content := "y",
                       created_at := 0, updated_at := 2 },
                     { id := 3, user_str_id := "alice", snippet_name := "a3",
                       language := "java", code_content := "z",
                       created_at := 0, updated_at := 3 },
                     { id := 4, user_str_id := "bob", snippet_name := "b1",
                       language := "python", code_content := "w",
                       created_at := 0, updated_at := 4 }],
        next_id := 5 }).1
      = [{ snippet_name := "a1", language := "Python", updated_at := 1 },
         { snippet_name := "a2", language := "python3", updated_at := 2 }] :=
  ⟨by decide,
   filter_language_ci_substring "alice" "python"
     { users := ["alice", "bob"],
       snippets := [{ id := 1, user_str_id := "alice", snippet_name := "a1",
                      language := "Python", code_content := "x",
                      created_at := 0, updated_at := 1 },
                    { id := 2, user_str_id := "alice", snippet_name := "a2",
                      language := "python3", code_content := "y",
                      created_at := 0, updated_at := 2 },
                    { id := 3, user_str_id := "alice", snippet_name := "a3",
                      language := "java", code_content := "z",
                      created_at := 0, updated_at := 3 },
                    { id := 4, user_str_id := "bob", snippet_name := "b1",
                      language := "python", code_content := "w",
                      created_at := 0, updated_at := 4 }],
       next_id := 5 } (by decide),
   by decide⟩
